import Mathlib

/-!
Verification development for `monk_tf/fixture.py` (MONK test framework,
fixture layer).  The Python module is shallowly embedded below:

* the configuration tree handled by `configobj` becomes the inductive
  `MValue` (scalar values and nested sections, as ordered association
  lists), extended with the handle values that `_parse_section` writes
  back into the tree while it parses;
* `Fixture._parse_section` / `Fixture._initialize` become the fueled
  functions `parse_section` / `build_devs` (the fuel only bounds the
  recursion depth; every run on a tree of depth `< fuel` is exact);
* the command router (`cmd_first`, `cmd_any`, `cmd_all`, `get_dev`,
  `reset_config_all`, `tear_down`, `read`) is embedded over an abstract
  device type `Dev` whose behaviour (`cmd`, `reset_config`, `close_all`)
  is a parameter, since the concrete device classes live in the external
  modules `dev` / `conn`;
* Python exceptions become the inductive `PyError`; the subclasses of
  `AFixtureException` are singled out by `isFixtureError`.
-/

namespace MonkTF

/-- Errors that the embedded code can raise.  `keyError`, `indexError`,
`typeError` and `attributeError` model the plain Python builtin
exceptions; `recursionLimit` models Python's recursion limit (used as
fuel exhaustion below); the remaining constructors model the
`AFixtureException` subclasses defined in `fixture.py`; `handleFail`
stands for an arbitrary exception raised by an external device object. -/
inductive PyError where
  | keyError : String → PyError
  | indexError : PyError
  | typeError : PyError
  | attributeError : PyError
  | recursionLimit : PyError
  | noProps : PyError
  | noDevice : PyError
  | cantHandle : String → List String → String → PyError
  | wrongName : String → List String → PyError
  | handleFail : Nat → PyError
deriving DecidableEq

/-- Whether an error is one of the fixture layer's own
`AFixtureException` subclasses (as opposed to a bare builtin Python
exception such as `KeyError`, `IndexError` or `TypeError`). -/
def isFixtureError : PyError → Bool
  | .noProps => true
  | .noDevice => true
  | .cantHandle _ _ _ => true
  | .wrongName _ _ => true
  | _ => false

/-- A value stored in the (mutable) configuration tree.  Input trees use
only `scalar` and `sect`; `_parse_section` additionally stores parsed
handle objects back into the tree (`section["conns"] = [...]`,
`section["bcc"] = ...`), which the constructors `hval` / `hlist` model.
A section is an ordered association list, mirroring the ordered dict
behaviour of `configobj` sections (unique keys, insertion order). -/
inductive MValue where
  | scalar : String → MValue
  | sect : List (String × MValue) → MValue
  | hval : String → List (String × MValue) → MValue
  | hlist : List (String × List (String × MValue)) → MValue

/-- An ordered section body: the key/value pairs of one config section. -/
abbrev SectL := List (String × MValue)

/-- The object returned by a factory call `sectype(**section)`:
`_parse_section` determines it completely by the class looked up under
the `type` tag and the keyword attributes passed; the default factories
themselves live outside this module, so the embedding records both. -/
structure Handle where
  tag : String
  attrs : SectL

/-- The tree value under which a parsed handle is stored back into its
parent section. -/
def Handle.toVal (h : Handle) : MValue := .hval h.tag h.attrs

/-- First value stored under key `k` (Python `section[k]` /
`k in section`). -/
def lookupKey (k : String) : SectL → Option MValue
  | [] => none
  | (k', v) :: rest => if k' = k then some v else lookupKey k rest

/-- Remove the entry of key `k` (the removal half of `section.pop(k)`). -/
def removeKey (k : String) : SectL → SectL
  | [] => []
  | (k', v) :: rest => if k' = k then rest else (k', v) :: removeKey k rest

/-- Python dict assignment `section[k] = v`: replaces the value in place
when the key is present, appends at the end otherwise. -/
def setKey (k : String) (v : MValue) : SectL → SectL
  | [] => [(k, v)]
  | (k', v') :: rest => if k' = k then (k, v) :: rest else (k', v') :: setKey k v rest

theorem lookupKey_removeKey {k k' : String} (h : k ≠ k') (l : SectL) :
    lookupKey k (removeKey k' l) = lookupKey k l := by
  induction l with
  | nil => rfl
  | cons p rest ih =>
    obtain ⟨k'', v⟩ := p
    by_cases h1 : k'' = k'
    · subst h1
      simp [removeKey, lookupKey, Ne.symm h]
    · by_cases h2 : k'' = k
      · subst h2
        simp [removeKey, lookupKey, h1]
      · simp [removeKey, lookupKey, h1, h2, ih]

theorem lookupKey_setKey_self (k : String) (v : MValue) (l : SectL) :
    lookupKey k (setKey k v l) = some v := by
  induction l with
  | nil => simp [setKey, lookupKey]
  | cons p rest ih =>
    obtain ⟨k', v'⟩ := p
    by_cases h : k' = k
    · subst h
      simp [setKey, lookupKey]
    · simp [setKey, lookupKey, h, ih]

theorem lookupKey_setKey_ne {k k' : String} (h : k ≠ k') (v : MValue) (l : SectL) :
    lookupKey k (setKey k' v l) = lookupKey k l := by
  induction l with
  | nil => simp [setKey, lookupKey, Ne.symm h]
  | cons p rest ih =>
    obtain ⟨k'', v''⟩ := p
    by_cases h1 : k'' = k'
    · subst h1
      simp [setKey, lookupKey, Ne.symm h, h]
    · by_cases h2 : k'' = k
      · subst h2
        simp [setKey, lookupKey, h1]
      · simp [setKey, lookupKey, h1, h2, ih]

/-- The list comprehension `[self._parse_section(s, cs[s]) for s in cs]`
over the children of a `conns` sub-section: each child must itself be a
section (a non-section child makes the recursive `pop` fail, modelled as
`attributeError`).  Returns the parsed handles in order together with
the total number of deprecation notices the children emitted. -/
def parse_kids (p : String → SectL → Except PyError (Handle × Nat)) :
    SectL → Except PyError (List Handle × Nat)
  | [] => .ok ([], 0)
  | (nm, v) :: rest =>
    match v with
    | .sect b =>
      match p nm b with
      | .error e => .error e
      | .ok (h, n) =>
        match parse_kids p rest with
        | .error e => .error e
        | .ok (hs, ns) => .ok (h :: hs, n + ns)
    | _ => .error .attributeError

/-- `if "conns" in section: cs = section.pop("conns");
section["conns"] = [self._parse_section(s, cs[s]) for s in cs]`.
The key is popped and the handle list re-inserted, which appends it at
the end of the section. -/
def stepConns (p : String → SectL → Except PyError (Handle × Nat)) (s : SectL) :
    Except PyError (SectL × Nat) :=
  match lookupKey "conns" s with
  | none => .ok (s, 0)
  | some (.sect cs) =>
    match parse_kids p cs with
    | .error e => .error e
    | .ok (hs, n) =>
      .ok (setKey "conns" (.hlist (hs.map fun h => (h.tag, h.attrs))) (removeKey "conns" s), n)
  | some _ => .error .typeError

/-- `if "bcc" in section: self.log("DEPRECATED: Use bctrl instead of bcc");
bs = section.pop("bcc"); section["bcc"] = self._parse_section("bcc", bs)`.
The count in the result is the number of deprecation notices logged
(one for this key plus whatever the recursive parse logged). -/
def stepBcc (p : String → SectL → Except PyError (Handle × Nat)) (s : SectL) :
    Except PyError (SectL × Nat) :=
  match lookupKey "bcc" s with
  | none => .ok (s, 0)
  | some (.sect b) =>
    match p "bcc" b with
    | .error e => .error e
    | .ok (h, n) => .ok (setKey "bcc" h.toVal (removeKey "bcc" s), n + 1)
  | some _ => .error .attributeError

/-- `if "bctrl" in section: bs = section.pop("bctrl");
section["bcc"] = self._parse_section("bctrl", bs)` — note that the
result is stored under the `"bcc"` key, replacing in place any value the
`bcc` branch just stored there. -/
def stepBctrl (p : String → SectL → Except PyError (Handle × Nat)) (s : SectL) :
    Except PyError (SectL × Nat) :=
  match lookupKey "bctrl" s with
  | none => .ok (s, 0)
  | some (.sect b) =>
    match p "bctrl" b with
    | .error e => .error e
    | .ok (h, n) => .ok (setKey "bcc" h.toVal (removeKey "bctrl" s), n)
  | some _ => .error .attributeError

/-- `Fixture._parse_section(name, section)`.  The first argument bounds
the recursion depth (Python's recursion limit); a run that returns `.ok`
never hit the bound.  Steps, in source order:
`sectype = self.classes[section.pop("type")]` (a missing key raises
`KeyError("type")`, an unknown tag raises `KeyError(tag)`, a
non-scalar tag is unhashable and raises `TypeError`); then the
`conns`, `bcc` and `bctrl` keys are processed; finally
`section["name"] = name` and the factory is called on the remaining
attributes.  The returned `Handle` records the class tag and the final
keyword attributes, which are also exactly the mutated section left
behind in the configuration tree.  The second component counts the
deprecation notices emitted. -/
def parse_section : Nat → List String → String → SectL → Except PyError (Handle × Nat)
  | 0, _, _, _ => .error .recursionLimit
  | fuel+1, reg, nm, s =>
    match lookupKey "type" s with
    | none => .error (.keyError "type")
    | some (.scalar t) =>
      if reg.contains t then
        match stepConns (parse_section fuel reg) (removeKey "type" s) with
        | .error e => .error e
        | .ok (s2, n2) =>
          match stepBcc (parse_section fuel reg) s2 with
          | .error e => .error e
          | .ok (s3, n3) =>
            match stepBctrl (parse_section fuel reg) s3 with
            | .error e => .error e
            | .ok (s4, n4) =>
              .ok (⟨t, setKey "name" (.scalar nm) s4⟩, n2 + n3 + n4)
      else .error (.keyError t)
    | some _ => .error .typeError

/-- The comprehension in `Fixture._initialize`:
`[self._parse_section(d, self.props[d]) for d in self.props.viewkeys()]`.
Besides the handles (in top-level key order) it returns the mutated
configuration tree — each top-level section object has been destructively
updated in place by `_parse_section`, so after the build it consists of
exactly the final attribute record of its handle — and the total count of
deprecation notices. -/
def parse_tops (fuel : Nat) (reg : List String) :
    SectL → Except PyError (List Handle × SectL × Nat)
  | [] => .ok ([], [], 0)
  | (nm, v) :: rest =>
    match v with
    | .sect b =>
      match parse_section fuel reg nm b with
      | .error e => .error e
      | .ok (h, n) =>
        match parse_tops fuel reg rest with
        | .error e => .error e
        | .ok (hs, tree, ns) => .ok (h :: hs, (nm, .sect h.attrs) :: tree, n + ns)
    | _ => .error .attributeError

/-- `Fixture._initialize`: raises `NoPropsException` when the merged
configuration is empty, otherwise builds one handle per top-level
section. -/
def build_devs (fuel : Nat) (reg : List String) (props : SectL) :
    Except PyError (List Handle × SectL × Nat) :=
  match props with
  | [] => .error .noProps
  | _ => parse_tops fuel reg props

/-- The keyword arguments of one Python call `dev.cmd(...)`.  Each field
beyond `msg` is `none` when the keyword was *not passed at all* (so the
device's own default applies) and `some v` when it was passed with value
`v`; the passed values themselves are optional (`expect=None`,
`login_timeout=None` are legal). -/
structure CmdCall where
  msg : String
  expect : Option (Option String)
  timeout : Option Nat
  login_timeout : Option (Option Nat)

/-- An external device object, as the fixture layer sees it.  The device
classes live in the external modules `dev` / `conn`, so their behaviour
is abstract: `cmd` maps the call's arguments to a result or a raised
exception, `reset_config` and `close_all` either return or raise. -/
structure Dev where
  name : String
  cmd : CmdCall → Except PyError String
  reset_config : Except PyError Unit
  close_all : Except PyError Unit

/-- `Fixture.cmd_first`: `try: return self.devs[0].cmd(msg)
except IndexError: raise NoDeviceException(...)`.  Only `msg` is passed
on; an empty device list makes the indexing raise `IndexError`, which is
converted — and so is an `IndexError` raised by the device's own `cmd`,
since the `try` block covers the whole expression. -/
def cmd_first (devs : List Dev) (msg : String) (_expect : Option String)
    (_timeout : Nat) (_login_timeout : Option Nat) : Except PyError String :=
  match devs with
  | [] => .error .noDevice
  | d :: _ =>
    match d.cmd ⟨msg, none, none, none⟩ with
    | .error .indexError => .error .noDevice
    | .error e => .error e
    | .ok r => .ok r

/-- `Fixture.cmd_any`.  The loop body ends, after the `try`/`except`, in
an unconditional `raise CantHandleException(...)`, so the loop never
reaches a second device: the first device's success is returned, the
first device's failure raises the aggregate error (whose message lists
the fixture's name, `map(str, self.devs)` — modelled by the device
names — and the command).  An empty device list only logs a warning and
falls through, returning Python `None` (modelled as `.ok none`). -/
def cmd_any (fixtName : String) (devs : List Dev) (msg : String)
    (expect : Option String) (timeout : Nat) (login_timeout : Option Nat) :
    Except PyError (Option String) :=
  match devs with
  | [] => .ok none
  | d :: rest =>
    match d.cmd ⟨msg, some expect, some timeout, some login_timeout⟩ with
    | .ok r => .ok (some r)
    | .error _ => .error (.cantHandle fixtName (d.name :: rest.map Dev.name) msg)

/-- `Fixture.cmd_all`.  The loop body is a bare `return dev.cmd(...)`,
so the first device's outcome (result or raised exception) is the whole
outcome; an empty device list logs a warning and returns `None`. -/
def cmd_all (devs : List Dev) (msg : String) (expect : Option String)
    (timeout : Nat) (login_timeout : Option Nat) : Except PyError (Option String) :=
  match devs with
  | [] => .ok none
  | d :: _ => (d.cmd ⟨msg, some expect, some timeout, some login_timeout⟩).map some

/-- The mutable state of a `Fixture` that the command router touches:
`self.devs` (the handle graph, in construction order) and
`self._devs_dict` (the lazily populated name→device cache, an insertion
ordered dict). -/
structure RouterState where
  devs : List Dev
  devsDict : List (String × Dev)

/-- Python list indexing `l[i]`: negative indices count from the end,
anything out of range raises `IndexError`. -/
def pyListGet (l : List Dev) (i : Int) : Except PyError Dev :=
  let j : Int := if i < 0 then i + l.length else i
  if j < 0 then .error .indexError
  else
    match l.get? j.toNat with
    | some d => .ok d
    | none => .error .indexError

/-- Lookup in the name cache `self._devs_dict`. -/
def lookupDev (s : String) : List (String × Dev) → Option Dev
  | [] => none
  | (k, d) :: rest => if k = s then some d else lookupDev s rest

/-- The scan loop of `get_dev`'s name path: walks `self.devs` in order,
returning the first device whose `name` matches and otherwise
accumulating the names seen, for the `WrongNameException` message. -/
def scanDevs (s : String) : List Dev → List String → Option Dev × List String
  | [], names => (none, names)
  | d :: rest, names =>
    if d.name = s then (some d, names) else scanDevs s rest (names ++ [d.name])

/-- `Fixture.get_dev(which)`: `try: return self.devs[which]` — an integer
index is looked up directly, and an out-of-range index raises a plain
`IndexError` that nothing catches; only the `TypeError` raised by
indexing a list with a string reaches the name path, which first
consults the cache (even if its entry predates the current graph), then
scans the graph, caching a hit, and finally raises
`WrongNameException(which, names)`. -/
def get_dev (st : RouterState) (which : Int ⊕ String) :
    Except PyError Dev × RouterState :=
  match which with
  | .inl i => (pyListGet st.devs i, st)
  | .inr s =>
    match lookupDev s st.devsDict with
    | some d => (.ok d, st)
    | none =>
      match scanDevs s st.devs [] with
      | (some d, _) => (.ok d, ⟨st.devs, st.devsDict ++ [(s, d)]⟩)
      | (none, names) => (.error (.wrongName s names), st)

/-- The loop of `tear_down`: `for device in self.devs:
device.close_all()`.  Returns the outcome (the first raised exception
aborts the loop) together with the trace of devices on which
`close_all` was invoked, in order. -/
def closeLoop : List Dev → Except PyError Unit × List String
  | [] => (.ok (), [])
  | d :: rest =>
    match d.close_all with
    | .error e => (.error e, [d.name])
    | .ok _ =>
      let (r, calls) := closeLoop rest
      (r, d.name :: calls)

/-- `Fixture.tear_down`: closes every device in graph order, then
`self.devs = []`.  The name cache `self._devs_dict` is not touched
anywhere in the method.  If a `close_all` raises, the assignment is
never reached and the state is left as it was.  The last component is
the trace of `close_all` invocations. -/
def tear_down (st : RouterState) : Except PyError Unit × RouterState × List String :=
  match closeLoop st.devs with
  | (.ok _, calls) => (.ok (), ⟨[], st.devsDict⟩, calls)
  | (.error e, calls) => (.error e, st, calls)

/-- `Fixture.read(source)`: `self.tear_down(); self.props.merge(...);
self._initialize()`.  The devices produced by the rebuild come from the
external factories via `_parse_section`, so they are abstracted here as
`newDevs`; what matters for the router state is that `read` replaces
`self.devs` and leaves `self._devs_dict` untouched. -/
def readRebuild (st : RouterState) (newDevs : List Dev) :
    Except PyError Unit × RouterState :=
  match tear_down st with
  | (.ok _, st', _) => (.ok (), ⟨newDevs, st'.devsDict⟩)
  | (.error e, st', _) => (.error e, st')

/-- The loop of `reset_config_all`: `for dev in self.devs:
dev.reset_config()` with no exception handling — the first raised
exception aborts the loop and propagates.  Returns the outcome and the
trace of devices on which `reset_config` was invoked. -/
def resetLoop : List Dev → Except PyError Unit × List String
  | [] => (.ok (), [])
  | d :: rest =>
    match d.reset_config with
    | .error e => (.error e, [d.name])
    | .ok _ =>
      let (r, calls) := resetLoop rest
      (r, d.name :: calls)

/-- `Fixture.reset_config_all`: on an empty graph it only logs a warning
(and the loop below does nothing), otherwise it runs the reset loop. -/
def reset_config_all (devs : List Dev) : Except PyError Unit × List String :=
  resetLoop devs

/-- Decidable statement that every device in the list closes cleanly. -/
def closes_ok (l : List Dev) : Bool :=
  l.all fun d => match d.close_all with | .ok _ => true | .error _ => false

/-- Decidable statement that every device in the list resets cleanly. -/
def resets_ok (l : List Dev) : Bool :=
  l.all fun d => match d.reset_config with | .ok _ => true | .error _ => false

/-- A device whose `cmd` always raises. -/
def devFail : Dev :=
  { name := "d1", cmd := fun _ => .error (.handleFail 1),
    reset_config := .ok (), close_all := .ok () }

/-- A device whose `cmd` always succeeds. -/
def devOk : Dev :=
  { name := "d2", cmd := fun _ => .ok "pong",
    reset_config := .ok (), close_all := .ok () }

/-- Claim C1: for every non-empty handle graph, `cmd_any` is claimed to
try `cmd` on each handle in graph order, continue past per-handle
failures, and raise the aggregate `CantHandleException` only after every
handle has failed or when the graph is empty.  The code instead raises
the aggregate error at the end of the *first* loop iteration: with
`[devFail, devOk]` it raises `CantHandleException` even though the
second device would have answered, and on an empty graph it returns
`None` instead of raising. -/
theorem cmd_any_raises_after_first_failure :
    cmd_any "fixt" [devFail, devOk] "ping" none 30 none
      = .error (.cantHandle "fixt" ["d1", "d2"] "ping") ∧
    devOk.cmd ⟨"ping", some none, some 30, some none⟩ = .ok "pong" ∧
    cmd_any "fixt" [] "ping" none 30 none = .ok none :=
  ⟨rfl, rfl, rfl⟩

/-- Claim C2: `cmd_all` is claimed to contact all N handles and return N
ordered outcomes.  The code's loop body is a bare `return`, so the
result is exactly the first handle's single outcome whatever the rest of
the graph contains, and a first-handle failure propagates. -/
theorem cmd_all_contacts_only_first :
    (∀ (d : Dev) (rest : List Dev) (msg : String) (e : Option String)
        (t : Nat) (lt : Option Nat),
      cmd_all (d :: rest) msg e t lt
        = (d.cmd ⟨msg, some e, some t, some lt⟩).map some) ∧
    cmd_all [devFail, devOk] "ping" none 30 none = .error (.handleFail 1) ∧
    cmd_all [] "ping" none 30 none = .ok none :=
  ⟨fun _ _ _ _ _ _ => rfl, rfl, rfl⟩

/-- The device named `a` belonging to the first graph; its `cmd` answers
`"old"`. -/
def devOldA : Dev :=
  { name := "a", cmd := fun _ => .ok "old",
    reset_config := .ok (), close_all := .ok () }

/-- The device named `a` belonging to the rebuilt graph; its `cmd`
answers `"new"`. -/
def devNewA : Dev :=
  { name := "a", cmd := fun _ => .ok "new",
    reset_config := .ok (), close_all := .ok () }

/-- A fixed argument record used to tell the two devices apart. -/
def probeCall : CmdCall := ⟨"id", some none, some 30, some none⟩

/-- Claim C3: the name cache is claimed to be invalidated on every
rebuild or teardown.  `tear_down` and `read` never touch
`self._devs_dict`: after a name lookup populates the cache and the graph
is rebuilt, `get_dev "a"` still returns the device of the *previous*
graph (it answers `"old"`), although the only device in the current
graph answers `"new"`. -/
theorem get_dev_returns_stale_cache_after_rebuild :
    (get_dev ⟨[devOldA], []⟩ (.inr "a")).2.devsDict = [("a", devOldA)] ∧
    (readRebuild ⟨[devOldA], [("a", devOldA)]⟩ [devNewA]).2.devs = [devNewA] ∧
    (readRebuild ⟨[devOldA], [("a", devOldA)]⟩ [devNewA]).2.devsDict
      = [("a", devOldA)] ∧
    (get_dev ⟨[devNewA], [("a", devOldA)]⟩ (.inr "a")).1 = .ok devOldA ∧
    devOldA.cmd probeCall = .ok "old" ∧
    devNewA.cmd probeCall = .ok "new" :=
  ⟨rfl, rfl, rfl, rfl, rfl, rfl⟩

/-- Claim C4: building is claimed to leave the merged configuration tree
unchanged, so that building twice yields equal graphs.  `_parse_section`
mutates each section in place: after one build of
`{dev1: {type: Device}}` the `type` key is gone (the section now holds
only the inserted `name`), and running the build again on the resulting
tree raises `KeyError('type')`. -/
theorem build_devs_consumes_tree :
    build_devs 5 ["Device"] [("dev1", .sect [("type", .scalar "Device")])]
      = .ok ([⟨"Device", [("name", .scalar "dev1")]⟩],
             [("dev1", .sect [("name", .scalar "dev1")])], 0) ∧
    lookupKey "type" [("name", MValue.scalar "dev1")] = none ∧
    build_devs 5 ["Device"] [("dev1", .sect [("name", .scalar "dev1")])]
      = .error (.keyError "type") :=
  ⟨rfl, rfl, rfl⟩

theorem closeLoop_of_closes_ok : ∀ {l : List Dev}, closes_ok l = true →
    closeLoop l = (.ok (), l.map Dev.name) := by
  intro l h
  induction l with
  | nil => rfl
  | cons d rest ih =>
    rw [closes_ok, List.all_cons] at h
    cases hda : d.close_all with
    | error e => rw [hda] at h; simp at h
    | ok u =>
      rw [hda] at h
      simp only [Bool.and_eq_true] at h
      have hrest := ih h.2
      simp [closeLoop, hda, hrest]

theorem resetLoop_of_resets_ok : ∀ {l : List Dev}, resets_ok l = true →
    resetLoop l = (.ok (), l.map Dev.name) := by
  intro l h
  induction l with
  | nil => rfl
  | cons d rest ih =>
    rw [resets_ok, List.all_cons] at h
    cases hda : d.reset_config with
    | error e => rw [hda] at h; simp at h
    | ok u =>
      rw [hda] at h
      simp only [Bool.and_eq_true] at h
      have hrest := ih h.2
      simp [resetLoop, hda, hrest]

theorem resetLoop_append_fail : ∀ (pre : List Dev) (d : Dev) (post : List Dev)
    (e : PyError), resets_ok pre = true → d.reset_config = .error e →
    resetLoop (pre ++ d :: post) = (.error e, pre.map Dev.name ++ [d.name]) := by
  intro pre d post e hpre hd
  induction pre with
  | nil => simp [resetLoop, hd]
  | cons p rest ih =>
    rw [resets_ok, List.all_cons] at hpre
    cases hpa : p.reset_config with
    | error e' => rw [hpa] at hpre; simp at hpre
    | ok u =>
      rw [hpa] at hpre
      simp only [Bool.and_eq_true] at hpre
      have hrest := ih hpre.2
      simp [resetLoop, hpa, hrest]

/-- Two devices that close and reset cleanly, used as witnesses. -/
def devT1 : Dev :=
  { name := "t1", cmd := fun _ => .ok "r",
    reset_config := .ok (), close_all := .ok () }

/-- See `devT1`. -/
def devT2 : Dev :=
  { name := "t2", cmd := fun _ => .ok "r",
    reset_config := .ok (), close_all := .ok () }

/-- Claim C5: when every `close_all` returns normally, `tear_down`
invokes `close_all` exactly once on each device, in graph order (the
invocation trace is exactly the device list), and empties the graph;
a second `tear_down` on the now-empty graph performs zero further
`close_all` calls. -/
theorem tear_down_exactly_once (st : RouterState) (h : closes_ok st.devs = true) :
    tear_down st = (.ok (), ⟨[], st.devsDict⟩, st.devs.map Dev.name) ∧
    tear_down ⟨[], st.devsDict⟩ = (.ok (), ⟨[], st.devsDict⟩, ([] : List String)) := by
  constructor
  · simp [tear_down, closeLoop_of_closes_ok h]
  · rfl

/-- Concrete instance of `tear_down_exactly_once` on a two-device graph. -/
theorem tear_down_exactly_once_witness :
    tear_down ⟨[devT1, devT2], []⟩ = (.ok (), ⟨[], []⟩, ["t1", "t2"]) ∧
    tear_down ⟨[], []⟩ = (.ok (), ⟨[], []⟩, ([] : List String)) :=
  tear_down_exactly_once ⟨[devT1, devT2], []⟩ rfl

/-- A device whose `reset_config` raises. -/
def devR1 : Dev :=
  { name := "r1", cmd := fun _ => .ok "x",
    reset_config := .error (.handleFail 7), close_all := .ok () }

/-- A device whose `reset_config` succeeds, placed after `devR1`. -/
def devR2 : Dev :=
  { name := "r2", cmd := fun _ => .ok "x",
    reset_config := .ok (), close_all := .ok () }

/-- Claim C8, counterexample: with `[devR1, devR2]` where `devR1`'s
`reset_config` raises, the loop stops at `devR1` — the trace shows
`reset_config` was never invoked on `devR2`, and the error propagates
instead of the method returning normally. -/
theorem reset_config_all_counterexample :
    reset_config_all [devR1, devR2] = (.error (.handleFail 7), ["r1"]) := rfl

/-- Claim C8, amended: `reset_config_all` invokes `reset_config` on the
devices in graph order only up to and including the first failing
device, whose exception propagates (subsequent devices are not reset);
when no device fails every device is reset in order; on an empty graph
it logs a warning and returns normally. -/
theorem reset_config_all_stops_at_first_failure :
    reset_config_all [] = (.ok (), []) ∧
    (∀ devs : List Dev, resets_ok devs = true →
      reset_config_all devs = (.ok (), devs.map Dev.name)) ∧
    (∀ (pre : List Dev) (d : Dev) (post : List Dev) (e : PyError),
      resets_ok pre = true → d.reset_config = .error e →
      reset_config_all (pre ++ d :: post) = (.error e, pre.map Dev.name ++ [d.name])) :=
  ⟨rfl,
   fun _ h => resetLoop_of_resets_ok h,
   fun pre d post e hpre hd => resetLoop_append_fail pre d post e hpre hd⟩

/-- Concrete instances of `reset_config_all_stops_at_first_failure`. -/
theorem reset_config_all_stops_witness :
    reset_config_all [devT1, devT2] = (.ok (), ["t1", "t2"]) ∧
    reset_config_all [devT1, devR1, devR2] = (.error (.handleFail 7), ["t1", "r1"]) :=
  ⟨reset_config_all_stops_at_first_failure.2.1 [devT1, devT2] rfl,
   reset_config_all_stops_at_first_failure.2.2 [devT1] devR1 [devR2]
     (.handleFail 7) rfl rfl⟩

/-- A device whose `cmd` reports whether any keyword besides `msg` was
passed: it answers `"defaults"` when called as `cmd(msg)` and
`"forwarded"` when any of `expect`, `timeout`, `login_timeout` is
passed. -/
def devSpy : Dev :=
  { name := "spy",
    cmd := fun c =>
      match c.expect, c.timeout, c.login_timeout with
      | none, none, none => .ok "defaults"
      | _, _, _ => .ok "forwarded",
    reset_config := .ok (), close_all := .ok () }

/-- Claim C9, counterexample: `cmd_first` is claimed to forward all
caller-supplied arguments to the first handle's `cmd`.  Calling it with
explicit `expect`, `timeout` and `login_timeout` reaches the device as a
bare `cmd(msg)` — the device answers `"defaults"`, while a forwarding
call would have answered `"forwarded"`. -/
theorem cmd_first_counterexample :
    cmd_first [devSpy] "hi" (some "x") 5 (some 2) = .ok "defaults" ∧
    devSpy.cmd ⟨"hi", some (some "x"), some 5, some (some 2)⟩ = .ok "forwarded" :=
  ⟨rfl, rfl⟩

/-- Claim C9, amended: `cmd_first` sends the command to the first handle
in graph order forwarding only `msg` (the `expect`, `timeout` and
`login_timeout` arguments are accepted but not forwarded, so the
device's own defaults apply), and fails with `NoDeviceException` when
the graph is empty. -/
theorem cmd_first_forwards_only_msg :
    (∀ (msg : String) (e : Option String) (t : Nat) (lt : Option Nat),
      cmd_first [] msg e t lt = .error .noDevice) ∧
    (∀ (d : Dev) (rest : List Dev) (msg : String) (e : Option String) (t : Nat)
        (lt : Option Nat) (r : String),
      d.cmd ⟨msg, none, none, none⟩ = .ok r →
      cmd_first (d :: rest) msg e t lt = .ok r) ∧
    (∀ (d : Dev) (rest : List Dev) (msg : String) (e : Option String) (t : Nat)
        (lt : Option Nat) (err : PyError),
      d.cmd ⟨msg, none, none, none⟩ = .error err → err ≠ .indexError →
      cmd_first (d :: rest) msg e t lt = .error err) := by
  refine ⟨fun _ _ _ _ => rfl, ?_, ?_⟩
  · intro d rest msg e t lt r hc
    simp [cmd_first, hc]
  · intro d rest msg e t lt err hc hne
    cases err <;> simp_all [cmd_first]

/-- Concrete instances of `cmd_first_forwards_only_msg`. -/
theorem cmd_first_forwards_only_msg_witness :
    cmd_first [] "hi" none 30 none = .error .noDevice ∧
    cmd_first [devSpy] "hi" (some "x") 5 (some 2) = .ok "defaults" ∧
    cmd_first [devFail] "hi" none 30 none = .error (.handleFail 1) :=
  ⟨cmd_first_forwards_only_msg.1 "hi" none 30 none,
   cmd_first_forwards_only_msg.2.1 devSpy [] "hi" (some "x") 5 (some 2)
     "defaults" rfl,
   cmd_first_forwards_only_msg.2.2 devFail [] "hi" none 30 none
     (.handleFail 1) rfl (by simp)⟩

/-- Claim C10: `get_dev` with an integer index at or beyond the number
of devices lets the plain `IndexError` escape unwrapped (the state is
unchanged), and `IndexError` is not one of the fixture layer's own
exception classes — only the `TypeError` raised by string indexing is
caught and routed to the name lookup path. -/
theorem get_dev_out_of_range_index_error (st : RouterState) (i : Int)
    (h : (st.devs.length : Int) ≤ i) :
    get_dev st (.inl i) = (.error .indexError, st) ∧
    isFixtureError .indexError = false := by
  refine ⟨?_, rfl⟩
  have h0 : ¬ i < 0 := by omega
  have hlen : st.devs.length ≤ i.toNat := by omega
  simp only [get_dev, pyListGet, if_neg h0]
  rw [List.get?_eq_none.mpr hlen]

/-- Concrete instance of `get_dev_out_of_range_index_error`. -/
theorem get_dev_out_of_range_witness :
    get_dev ⟨[devT1], []⟩ (.inl 3) = (.error .indexError, ⟨[devT1], []⟩) ∧
    isFixtureError .indexError = false :=
  get_dev_out_of_range_index_error ⟨[devT1], []⟩ 3 (by norm_num)

theorem stepConns_of_none {p : String → SectL → Except PyError (Handle × Nat)}
    {s : SectL} (h : lookupKey "conns" s = none) : stepConns p s = .ok (s, 0) := by
  unfold stepConns
  rw [h]

theorem stepBcc_of_none {p : String → SectL → Except PyError (Handle × Nat)}
    {s : SectL} (h : lookupKey "bcc" s = none) : stepBcc p s = .ok (s, 0) := by
  unfold stepBcc
  rw [h]

theorem stepBctrl_of_none {p : String → SectL → Except PyError (Handle × Nat)}
    {s : SectL} (h : lookupKey "bctrl" s = none) : stepBctrl p s = .ok (s, 0) := by
  unfold stepBctrl
  rw [h]

theorem stepBcc_of_sect {p : String → SectL → Except PyError (Handle × Nat)}
    {s : SectL} {b : SectL} {hb : Handle} {nb : Nat}
    (h : lookupKey "bcc" s = some (.sect b)) (hp : p "bcc" b = .ok (hb, nb)) :
    stepBcc p s = .ok (setKey "bcc" hb.toVal (removeKey "bcc" s), nb + 1) := by
  unfold stepBcc
  rw [h]
  dsimp only
  rw [hp]

theorem stepBctrl_of_sect {p : String → SectL → Except PyError (Handle × Nat)}
    {s : SectL} {b : SectL} {hb : Handle} {nb : Nat}
    (h : lookupKey "bctrl" s = some (.sect b)) (hp : p "bctrl" b = .ok (hb, nb)) :
    stepBctrl p s = .ok (setKey "bcc" hb.toVal (removeKey "bctrl" s), nb) := by
  unfold stepBctrl
  rw [h]
  dsimp only
  rw [hp]

theorem stepConns_preserves {p : String → SectL → Except PyError (Handle × Nat)}
    {s s' : SectL} {n' : Nat} {k : String} (hk : k ≠ "conns")
    (h : stepConns p s = .ok (s', n')) :
    lookupKey k s' = lookupKey k s := by
  unfold stepConns at h
  cases hc : lookupKey "conns" s with
  | none =>
    rw [hc] at h
    simp only [Except.ok.injEq, Prod.mk.injEq] at h
    rw [← h.1]
  | some v =>
    rw [hc] at h
    cases v with
    | scalar a => simp at h
    | hval t a => simp at h
    | hlist l => simp at h
    | sect cs =>
      dsimp only at h
      cases hkids : parse_kids p cs with
      | error e => rw [hkids] at h; simp at h
      | ok pr =>
        obtain ⟨hs, nk⟩ := pr
        rw [hkids] at h
        simp only [Except.ok.injEq, Prod.mk.injEq] at h
        rw [← h.1, lookupKey_setKey_ne hk, lookupKey_removeKey hk]

/-- Claim C7, counterexample: a section named `dev1` without a `type`
key makes `_parse_section` raise the bare builtin `KeyError('type')` —
not a fixture-layer exception, and its payload is the key `"type"`, not
the section's name; a section whose tag `Widget` is not in the registry
raises the bare `KeyError('Widget')`. -/
theorem parse_section_bare_key_errors :
    parse_section 3 ["Device"] "dev1" [("port", .scalar "p1")]
      = .error (.keyError "type") ∧
    isFixtureError (.keyError "type") = false ∧
    parse_section 3 ["Device"] "dev2" [("type", .scalar "Widget")]
      = .error (.keyError "Widget") ∧
    isFixtureError (.keyError "Widget") = false :=
  ⟨rfl, rfl, rfl, rfl⟩

/-- Claim C7, amended: for every section lacking a `type` key,
`_parse_section` fails with the bare lookup error `KeyError('type')`
(carrying the key, not the section's name), and for every section whose
scalar `type` tag is absent from the registry it fails with the bare
`KeyError(tag)`; neither error is a fixture-layer exception. -/
theorem parse_section_type_errors_are_key_errors :
    (∀ (fuel : Nat) (reg : List String) (nm : String) (s : SectL),
      lookupKey "type" s = none →
      parse_section (fuel + 1) reg nm s = .error (.keyError "type") ∧
      isFixtureError (.keyError "type") = false) ∧
    (∀ (fuel : Nat) (reg : List String) (nm : String) (s : SectL) (t : String),
      lookupKey "type" s = some (.scalar t) → reg.contains t = false →
      parse_section (fuel + 1) reg nm s = .error (.keyError t) ∧
      isFixtureError (.keyError t) = false) := by
  constructor
  · intro fuel reg nm s h
    refine ⟨?_, rfl⟩
    simp only [parse_section]
    rw [h]
  · intro fuel reg nm s t h hreg
    refine ⟨?_, rfl⟩
    simp only [parse_section]
    rw [h]
    dsimp only
    rw [hreg]
    rfl

/-- Concrete instances of `parse_section_type_errors_are_key_errors`. -/
theorem parse_section_type_errors_witness :
    (parse_section 3 ["Device"] "w1" [("port", MValue.scalar "p")]
        = .error (.keyError "type") ∧
      isFixtureError (.keyError "type") = false) ∧
    (parse_section 3 ["Device"] "w2" [("type", MValue.scalar "Widget")]
        = .error (.keyError "Widget") ∧
      isFixtureError (.keyError "Widget") = false) :=
  ⟨parse_section_type_errors_are_key_errors.1 2 ["Device"] "w1"
     [("port", .scalar "p")] rfl,
   parse_section_type_errors_are_key_errors.2 2 ["Device"] "w2"
     [("type", .scalar "Widget")] "Widget" rfl rfl⟩

/-- Claim C6: when a parsed section carries both a `bcc` and a `bctrl`
sub-section, the constructed handle's `bcc` attribute is the handle
parsed from the `bctrl` sub-section (bctrl overrides bcc), and exactly
one deprecation notice is emitted beyond those of the sub-parses (so
with notice-free sub-sections and no `conns` key the total count is
`c1 + 1 + c2` with `c1 = c2 = 0`, i.e. exactly one); when only one of
the two keys is present, that one's parsed handle is stored under the
`bcc` attribute. -/
theorem bctrl_overrides_bcc :
    (∀ (fuel : Nat) (reg : List String) (nm : String) (s : SectL)
        (b1 b2 : SectL) (h : Handle) (n : Nat) (hb1 : Handle) (c1 : Nat)
        (hb2 : Handle) (c2 : Nat),
      lookupKey "conns" s = none →
      lookupKey "bcc" s = some (.sect b1) →
      lookupKey "bctrl" s = some (.sect b2) →
      parse_section fuel reg "bcc" b1 = .ok (hb1, c1) →
      parse_section fuel reg "bctrl" b2 = .ok (hb2, c2) →
      parse_section (fuel + 1) reg nm s = .ok (h, n) →
      lookupKey "bcc" h.attrs = some hb2.toVal ∧ n = c1 + 1 + c2) ∧
    (∀ (fuel : Nat) (reg : List String) (nm : String) (s : SectL)
        (b1 : SectL) (h : Handle) (n : Nat) (hb1 : Handle) (c1 : Nat),
      lookupKey "bcc" s = some (.sect b1) →
      lookupKey "bctrl" s = none →
      parse_section fuel reg "bcc" b1 = .ok (hb1, c1) →
      parse_section (fuel + 1) reg nm s = .ok (h, n) →
      lookupKey "bcc" h.attrs = some hb1.toVal) ∧
    (∀ (fuel : Nat) (reg : List String) (nm : String) (s : SectL)
        (b2 : SectL) (h : Handle) (n : Nat) (hb2 : Handle) (c2 : Nat),
      lookupKey "bcc" s = none →
      lookupKey "bctrl" s = some (.sect b2) →
      parse_section fuel reg "bctrl" b2 = .ok (hb2, c2) →
      parse_section (fuel + 1) reg nm s = .ok (h, n) →
      lookupKey "bcc" h.attrs = some hb2.toVal) := by
  refine ⟨?_, ?_, ?_⟩
  · intro fuel reg nm s b1 b2 h n hb1 c1 hb2 c2 hconns hbcc hbct hp1 hp2 hok
    simp only [parse_section] at hok
    cases ht : lookupKey "type" s with
    | none => rw [ht] at hok; simp at hok
    | some v =>
      rw [ht] at hok
      cases v with
      | scalar t =>
        dsimp only at hok
        cases hr : reg.contains t with
        | false => rw [hr] at hok; simp at hok
        | true =>
          rw [hr] at hok
          simp only [if_true] at hok
          have e1 : lookupKey "conns" (removeKey "type" s) = none :=
            (lookupKey_removeKey (by decide) s).trans hconns
          have e2 : lookupKey "bcc" (removeKey "type" s) = some (.sect b1) :=
            (lookupKey_removeKey (by decide) s).trans hbcc
          rw [stepConns_of_none e1] at hok
          dsimp only at hok
          rw [stepBcc_of_sect e2 hp1] at hok
          dsimp only at hok
          have e3 : lookupKey "bctrl"
              (setKey "bcc" hb1.toVal (removeKey "bcc" (removeKey "type" s)))
              = some (.sect b2) := by
            rw [lookupKey_setKey_ne (by decide), lookupKey_removeKey (by decide),
              lookupKey_removeKey (by decide), hbct]
          rw [stepBctrl_of_sect e3 hp2] at hok
          dsimp only at hok
          simp only [Except.ok.injEq, Prod.mk.injEq] at hok
          obtain ⟨hh, hn⟩ := hok
          constructor
          · rw [← hh]
            dsimp only
            rw [lookupKey_setKey_ne (by decide), lookupKey_setKey_self]
          · omega
      | sect b => simp at hok
      | hval t a => simp at hok
      | hlist l => simp at hok
  · intro fuel reg nm s b1 h n hb1 c1 hbcc hbct hp1 hok
    simp only [parse_section] at hok
    cases ht : lookupKey "type" s with
    | none => rw [ht] at hok; simp at hok
    | some v =>
      rw [ht] at hok
      cases v with
      | scalar t =>
        dsimp only at hok
        cases hr : reg.contains t with
        | false => rw [hr] at hok; simp at hok
        | true =>
          rw [hr] at hok
          simp only [if_true] at hok
          cases hsc : stepConns (parse_section fuel reg) (removeKey "type" s) with
          | error e => rw [hsc] at hok; simp at hok
          | ok pr =>
            obtain ⟨s2, n2⟩ := pr
            rw [hsc] at hok
            dsimp only at hok
            have e2 : lookupKey "bcc" s2 = some (.sect b1) := by
              rw [stepConns_preserves (by decide) hsc,
                lookupKey_removeKey (by decide), hbcc]
            rw [stepBcc_of_sect e2 hp1] at hok
            dsimp only at hok
            have e3 : lookupKey "bctrl"
                (setKey "bcc" hb1.toVal (removeKey "bcc" s2)) = none := by
              rw [lookupKey_setKey_ne (by decide), lookupKey_removeKey (by decide),
                stepConns_preserves (by decide) hsc,
                lookupKey_removeKey (by decide), hbct]
            rw [stepBctrl_of_none e3] at hok
            dsimp only at hok
            simp only [Except.ok.injEq, Prod.mk.injEq] at hok
            obtain ⟨hh, hn⟩ := hok
            rw [← hh]
            dsimp only
            rw [lookupKey_setKey_ne (by decide), lookupKey_setKey_self]
      | sect b => simp at hok
      | hval t a => simp at hok
      | hlist l => simp at hok
  · intro fuel reg nm s b2 h n hb2 c2 hbcc hbct hp2 hok
    simp only [parse_section] at hok
    cases ht : lookupKey "type" s with
    | none => rw [ht] at hok; simp at hok
    | some v =>
      rw [ht] at hok
      cases v with
      | scalar t =>
        dsimp only at hok
        cases hr : reg.contains t with
        | false => rw [hr] at hok; simp at hok
        | true =>
          rw [hr] at hok
          simp only [if_true] at hok
          cases hsc : stepConns (parse_section fuel reg) (removeKey "type" s) with
          | error e => rw [hsc] at hok; simp at hok
          | ok pr =>
            obtain ⟨s2, n2⟩ := pr
            rw [hsc] at hok
            dsimp only at hok
            have e2 : lookupKey "bcc" s2 = none := by
              rw [stepConns_preserves (by decide) hsc,
                lookupKey_removeKey (by decide), hbcc]
            rw [stepBcc_of_none e2] at hok
            dsimp only at hok
            have e3 : lookupKey "bctrl" s2 = some (.sect b2) := by
              rw [stepConns_preserves (by decide) hsc,
                lookupKey_removeKey (by decide), hbct]
            rw [stepBctrl_of_sect e3 hp2] at hok
            dsimp only at hok
            simp only [Except.ok.injEq, Prod.mk.injEq] at hok
            obtain ⟨hh, hn⟩ := hok
            rw [← hh]
            dsimp only
            rw [lookupKey_setKey_ne (by decide), lookupKey_setKey_self]
      | sect b => simp at hok
      | hval t a => simp at hok
      | hlist l => simp at hok

/-- Registry used by the backup-controller witnesses. -/
def regW : List String := ["Device", "SerialConnection"]

/-- Backup-controller sub-section used by the witnesses. -/
def subW : SectL := [("type", .scalar "SerialConnection")]

/-- A section carrying both `bcc` and `bctrl`. -/
def sBothW : SectL :=
  [("type", .scalar "Device"), ("bcc", .sect subW), ("bctrl", .sect subW)]

/-- A section carrying only `bcc`. -/
def sBccW : SectL := [("type", .scalar "Device"), ("bcc", .sect subW)]

/-- A section carrying only `bctrl`. -/
def sBctrlW : SectL := [("type", .scalar "Device"), ("bctrl", .sect subW)]

/-- The handle parsed from `subW` under the name `bcc`. -/
def hBccW : Handle := ⟨"SerialConnection", [("name", .scalar "bcc")]⟩

/-- The handle parsed from `subW` under the name `bctrl`. -/
def hBctrlW : Handle := ⟨"SerialConnection", [("name", .scalar "bctrl")]⟩

/-- Concrete instances of `bctrl_overrides_bcc`: with both keys present
the final `bcc` attribute is the `bctrl` handle and one deprecation
notice is emitted; with a single key present that key's handle lands
under `bcc`. -/
theorem bctrl_overrides_bcc_witness :
    (lookupKey "bcc"
        (Handle.mk "Device" [("bcc", hBctrlW.toVal), ("name", .scalar "d1")]).attrs
        = some hBctrlW.toVal ∧ (1 : Nat) = 0 + 1 + 0) ∧
    lookupKey "bcc"
        (Handle.mk "Device" [("bcc", hBccW.toVal), ("name", .scalar "d2")]).attrs
        = some hBccW.toVal ∧
    lookupKey "bcc"
        (Handle.mk "Device" [("bcc", hBctrlW.toVal), ("name", .scalar "d3")]).attrs
        = some hBctrlW.toVal :=
  ⟨bctrl_overrides_bcc.1 4 regW "d1" sBothW subW subW
      (Handle.mk "Device" [("bcc", hBctrlW.toVal), ("name", .scalar "d1")]) 1
      hBccW 0 hBctrlW 0 rfl rfl rfl rfl rfl rfl,
   bctrl_overrides_bcc.2.1 4 regW "d2" sBccW subW
      (Handle.mk "Device" [("bcc", hBccW.toVal), ("name", .scalar "d2")]) 1
      hBccW 0 rfl rfl rfl rfl,
   bctrl_overrides_bcc.2.2 4 regW "d3" sBctrlW subW
      (Handle.mk "Device" [("bcc", hBctrlW.toVal), ("name", .scalar "d3")]) 0
      hBctrlW 0 rfl rfl rfl rfl⟩

end MonkTF
